import Mathlib

/-!
Verification of the autoseq job-graph construction core
(`autoseq/pipeline/clinseq.py` and `autoseq/pipeline/alascca.py`)
against its natural-language specification.

The Python source is shallowly embedded: pure helpers become Lean
functions, the mutable `ClinseqPipeline` object becomes an explicit
state threaded through a small state-plus-error monad (a Python
exception carries the state at the point of the raise, matching the
fact that `raise` aborts the configuration pass while earlier
mutations of `self` persist).  Machine-level Python behaviours that
decide claims (the `collections.namedtuple` argument binding, tuple
literals produced by trailing commas, `str.format` placeholder/argument
mismatches, attribute lookups on objects lacking the attribute,
unbound local names) are modelled explicitly where the source exhibits
them.
-/

set_option autoImplicit false

namespace Autoseq

/-- Python runtime errors raised by the embedded code. -/
inductive PyErr where
  | nameError (n : String)
  | typeError (msg : String)
  | indexError
  | keyError (k : String)
  | valueError (msg : String)
  | attributeError (a : String)
  deriving DecidableEq, Repr

/-- Python values as needed to describe `__init__` field assignments:
`None`, strings, and one-element tuples (a trailing comma in an
assignment such as `self.somatic_vcf = None,` builds the one-element
tuple `(None,)`). -/
inductive PyVal where
  | none : PyVal
  | str : String → PyVal
  | tup1 : PyVal → PyVal
  deriving DecidableEq, Repr

/-- Python truthiness for the modelled values: `None` is falsy, a string
is truthy iff nonempty, a nonempty tuple is truthy. -/
def pyTruthy : PyVal → Bool
  | .none => false
  | .str s => s ≠ ""
  | .tup1 _ => true

/-! ### The `collections.namedtuple` call of clinseq.py lines 46-51

The source evaluates
`collections.namedtuple('sample_type', 'sample_id', 'library_kit_id', 'capture_kit_id')`.
Python 2.7 binds these four positional arguments as
`namedtuple(typename, field_names, verbose=False, rename=False)`:
the first argument is the type name, the second the field-name string,
and the remaining two land on `verbose` and `rename`. -/

/-- Result of binding the positional arguments of a
`collections.namedtuple(...)` call: the type name, the parsed field
names, and the truthiness of the `verbose` / `rename` slots. -/
structure NamedtupleSpec where
  typename : String
  fields : List String
  verbose_truthy : Bool
  rename_truthy : Bool
  deriving DecidableEq, Repr

/-- Split a character list at every occurrence of the separator
(the semantics of Python's `str.split(sep)`: splitting the empty string
yields one empty field). -/
def splitChars (sep : Char) : List Char → List (List Char)
  | [] => [[]]
  | c :: rest =>
      let r := splitChars sep rest
      if c = sep then [] :: r
      else
        match r with
        | h :: t => (c :: h) :: t
        | [] => [[c]]

/-- Python `s.split(sep)` for a one-character separator. -/
def pySplit (s : String) (sep : Char) : List String :=
  (splitChars sep s.data).map (fun l => ⟨l⟩)

/-- A `field_names` argument given as a single string is split on commas
and whitespace. -/
def splitFieldNames (f : String) : List String :=
  (pySplit ⟨f.data.map (fun ch => if ch = ',' then ' ' else ch)⟩ ' ').filter (· ≠ "")

/-- Python 2.7 positional-argument binding for `collections.namedtuple`:
`namedtuple(typename, field_names, verbose=False, rename=False)`.
Fewer than two or more than four positional arguments raise a
`TypeError` (modelled as `Option.none`). -/
def pyNamedtuple : List String → Option NamedtupleSpec
  | [t, f] => some ⟨t, splitFieldNames f, false, false⟩
  | [t, f, v] => some ⟨t, splitFieldNames f, v ≠ "", false⟩
  | [t, f, v, r] => some ⟨t, splitFieldNames f, v ≠ "", r ≠ ""⟩
  | _ => none

/-- The positional arguments of the `UniqueCapture = collections.namedtuple(...)`
call in clinseq.py lines 46-51. -/
def uniqueCaptureNamedtupleArgs : List String :=
  ["sample_type", "sample_id", "library_kit_id", "capture_kit_id"]

/-- Instantiating a namedtuple type with positional values: succeeds with
the field/value bindings iff the arity matches the field count,
otherwise a `TypeError` is raised (modelled as `Option.none`). -/
def namedtupleInstance (spec : NamedtupleSpec) (vals : List String) :
    Option (List (String × String)) :=
  if vals.length = spec.fields.length then some (spec.fields.zip vals) else none

/-! ### The declared unique-capture key

The comment above the `namedtuple` call ("Fields defining a unique
library capture item"), the four names listed in the call, §3 of the
spec and `compose_sample_str` all fix the declared key: the four fields
`sample_type`, `sample_id`, `library_kit_id`, `capture_kit_id`.  The
orchestrator embedding below works over this four-field structure.
Attribute reads outside this declared field set — `merge_and_rm_dup`
and `call_germline_variants` read `capture.prep_kit_id` — are modelled
as Python attribute lookups that raise `AttributeError` (see
`getattrUniqueCapture` below), exactly as they would on the declared
key. -/

/-- The unique library-capture key: sample type, sample id, library kit
id, capture kit id.  Structural equality, usable as a map key. -/
structure UniqueCapture where
  sample_type : String
  sample_id : String
  library_kit_id : String
  capture_kit_id : String
  deriving DecidableEq, Repr

/-- clinseq.py `parse_sample_type`: token 3 of the dash-separated barcode. -/
def parse_sample_type (clinseq_barcode : String) : String :=
  (pySplit clinseq_barcode '-').getD 3 ""

/-- clinseq.py `parse_sample_id`: token 4 of the dash-separated barcode. -/
def parse_sample_id (clinseq_barcode : String) : String :=
  (pySplit clinseq_barcode '-').getD 4 ""

/-- clinseq.py `parse_prep_kit_id`: the first two characters of token 5. -/
def parse_prep_kit_id (clinseq_barcode : String) : String :=
  ⟨((pySplit clinseq_barcode '-').getD 5 "").data.take 2⟩

/-- clinseq.py `parse_capture_kit_id`: the first two characters of token 6. -/
def parse_capture_kit_id (clinseq_barcode : String) : String :=
  ⟨((pySplit clinseq_barcode '-').getD 6 "").data.take 2⟩

/-- clinseq.py `parse_capture_tuple`: build the capture key from the
barcode's fixed-position tokens.  With the source's actual
`UniqueCapture` definition this call raises `TypeError` — the broken
`namedtuple` has one field, see `pyNamedtuple` and the C2 theorem —
so this four-field form is the declared-intent idealization; it is
used only on the code-bug side of the analysis (the full-run
evaluations that exhibit further downstream defects), never to confirm
a claim. -/
def parse_capture_tuple (clinseq_barcode : String) : UniqueCapture :=
  ⟨parse_sample_type clinseq_barcode,
   parse_sample_id clinseq_barcode,
   parse_prep_kit_id clinseq_barcode,
   parse_capture_kit_id clinseq_barcode⟩

/-- clinseq.py `compose_sample_str`: the canonical
`"{sample_type}-{sample_id}-{library_kit_id}-{capture_kit_id}"` renderer. -/
def compose_sample_str (capture : UniqueCapture) : String :=
  capture.sample_type ++ "-" ++ capture.sample_id ++ "-" ++
    capture.library_kit_id ++ "-" ++ capture.capture_kit_id

/-- Python attribute lookup on the four-field capture key: only the
four declared field names exist; any other name — in particular
`prep_kit_id`, which `merge_and_rm_dup` (clinseq.py line 313) and
`call_germline_variants` (line 397) read — raises `AttributeError`. -/
def getattrUniqueCapture (c : UniqueCapture) (a : String) : Except PyErr String :=
  if a = "sample_type" then .ok c.sample_type
  else if a = "sample_id" then .ok c.sample_id
  else if a = "library_kit_id" then .ok c.library_kit_id
  else if a = "capture_kit_id" then .ok c.capture_kit_id
  else .error (.attributeError a)

/-! ### `str.format` with positional `{}` placeholders -/

/-- One piece of a format template: a literal run, or a `{}` placeholder. -/
inductive Piece where
  | lit (s : String)
  | hole
  deriving DecidableEq, Repr

/-- Python `str.format` with positional `{}` placeholders: substitute the
arguments left to right; if a placeholder remains when the arguments are
exhausted, an `IndexError` is raised (modelled as `Option.none`).
Surplus arguments are ignored, as in Python. -/
def pyFormat : List Piece → List String → Option String
  | [], _ => some ""
  | .lit s :: ps, as => (pyFormat ps as).map (s ++ ·)
  | .hole :: _, [] => none
  | .hole :: ps, a :: as => (pyFormat ps as).map (a ++ ·)

/-- The template `"{}/contamination/pop_vcf_{}-{}.vcf"` of
`configure_contest_vcf_generation` (clinseq.py line 560): three
placeholders. -/
def contestVcfTemplate : List Piece :=
  [.hole, .lit "/contamination/pop_vcf_", .hole, .lit "-", .hole, .lit ".vcf"]

/-! ### The results records -/

/-- clinseq.py `SinglePanelResults` as used by the orchestrators: the
per-capture slots for the merged/deduplicated bam, the CNV-kit ratio and
segment outputs, and the coverage QC call.  (For the field values as
Python's `__init__` actually assigns them, see
`pyInitSinglePanelResults` below.) -/
structure SinglePanelResults where
  merged_bamfile : Option String := none
  cnr : Option String := none
  cns : Option String := none
  cov_qc_call : Option String := none
  deriving DecidableEq, Repr

/-- clinseq.py `CancerVsNormalPanelResults` as used by the orchestrators:
the per-(normal, cancer)-pair result slots.  (For the field values as
Python's `__init__` actually assigns them — six of the seven
assignments end in a trailing comma and hence store one-element tuples
— see `pyInitCancerVsNormalPanelResults` below.) -/
structure CancerVsNormalPanelResults where
  somatic_vcf : Option String := none
  msi_output : Option String := none
  hzconcordance_output : Option String := none
  vcf_addsample_output : Option String := none
  normal_contest_output : Option String := none
  cancer_contest_output : Option String := none
  cancer_contam_call : Option String := none
  deriving DecidableEq, Repr

/-- The field assignments performed by `SinglePanelResults.__init__`
(clinseq.py lines 20-28), evaluated with Python semantics: every field
is assigned `None`. -/
def pyInitSinglePanelResults : List (String × PyVal) :=
  [("merged_bamfile", .none), ("cnr", .none), ("cns", .none), ("cov_qc_call", .none)]

/-- The field assignments performed by `CancerVsNormalPanelResults.__init__`
(clinseq.py lines 35-42), evaluated with Python semantics: the first six
statements end in a trailing comma (`self.somatic_vcf = None,` and so
on), so they assign the one-element tuple `(None,)`; only the last
field, `cancer_contam_call`, is assigned `None`. -/
def pyInitCancerVsNormalPanelResults : List (String × PyVal) :=
  [("somatic_vcf", .tup1 .none),
   ("msi_output", .tup1 .none),
   ("hzconcordance_output", .tup1 .none),
   ("vcf_addsample_output", .tup1 .none),
   ("normal_contest_output", .tup1 .none),
   ("cancer_contest_output", .tup1 .none),
   ("cancer_contam_call", .none)]

/-- Python attribute lookup on a `SinglePanelResults` instance: only the
four fields assigned by `__init__` exist; any other name raises
`AttributeError`. -/
def getattrSinglePanelResults (r : SinglePanelResults) (a : String) :
    Except PyErr (Option String) :=
  if a = "merged_bamfile" then .ok r.merged_bamfile
  else if a = "cnr" then .ok r.cnr
  else if a = "cns" then .ok r.cns
  else if a = "cov_qc_call" then .ok r.cov_qc_call
  else .error (.attributeError a)

/-! ### Sample data, reference data, jobs, and the pipeline state -/

/-- The per-datatype barcode lists of the input sample description
(`sampledata['panel']` or `sampledata['wgs']`). -/
structure PanelGroups where
  N : List String := []
  T : List String := []
  CFDNA : List String := []
  deriving DecidableEq, Repr

/-- The input sample description `{sdid, panel: {...}, wgs: {...}}`. -/
structure SampleData where
  sdid : String
  panel : PanelGroups
  wgs : PanelGroups := {}
  deriving DecidableEq, Repr

/-- Per-capture-kit reference files
(`refdata['targets'][capture_kit_name][...]`). -/
structure TargetInfo where
  targets_bed_slopped20 : String
  targets_interval_list_slopped20 : String
  cnvkit_ref : Option String
  msisites : String
  deriving DecidableEq, Repr

/-- The reference-data bundle.  `targets` is a total mapping from target
names to their reference files (claims about missing reference keys are
not in scope; all lookups the claims exercise hit present keys). -/
structure RefData where
  reference_genome : String
  chrsizes : String
  vep_dir : Option String
  swegene_common : String
  bwaIndex : String
  targets : String → TargetInfo

/-- The external collaborators: the library directory and the fastq
discovery helper `find_fastqs(barcode, libdir) -> (fq1s, fq2s)`, which
yields `(None, None)` when no read pairs are discoverable. -/
structure Env where
  libdir : String
  find_fastqs : String → Option (List String) × Option (List String)

/-- A configured job node: the tool (Python class) that is wrapped, the
job name, the declared artifact-reference inputs (in assignment order;
an input may be `none` when the Python code wires in a `None`
reference), the declared output paths, and the intermediate flag. -/
structure Job where
  kind : String
  name : String := ""
  inputs : List (Option String) := []
  outputs : List String := []
  is_intermediate : Bool := false
  deriving DecidableEq, Repr

/-- The mutable part of a `ClinseqPipeline` instance: the job graph, the
pipeline-wide QC file list, and the three results-ledger mappings
(association lists in insertion order). -/
structure PState where
  jobs : List Job := []
  qc_files : List String := []
  capture_to_results : List (UniqueCapture × SinglePanelResults) := []
  normal_capture_to_vcf : List (UniqueCapture × String) := []
  normal_cancer_pair_to_results :
    List ((UniqueCapture × UniqueCapture) × CancerVsNormalPanelResults) := []
  deriving DecidableEq, Repr

/-- Result of running a configuration step: Python exceptions abort the
pass but the state mutated before the raise persists. -/
inductive MResult (α : Type) where
  | ok (a : α) (s : PState)
  | err (e : PyErr) (s : PState)
  deriving DecidableEq, Repr

/-- The configuration monad: state over the pipeline instance with
Python exceptions. -/
def M (α : Type) : Type := PState → MResult α

instance : Monad M where
  pure a := fun s => .ok a s
  bind x f := fun s =>
    match x s with
    | .ok a s' => f a s'
    | .err e s' => .err e s'

/-- Raise a Python exception, keeping the state accumulated so far. -/
def raiseErr {α : Type} (e : PyErr) : M α := fun s => .err e s

/-- Read the pipeline state. -/
def getS : M PState := fun s => .ok s s

/-- Apply a state update. -/
def modifyS (f : PState → PState) : M Unit := fun s => .ok () (f s)

/-- Lift an `Except` computation (a pure Python expression that may
raise) into the monad. -/
def liftExcept {α : Type} : Except PyErr α → M α
  | .ok a => pure a
  | .error e => raiseErr e

/-- The error component of a run, if any. -/
def MResult.errOf {α : Type} : MResult α → Option PyErr
  | .ok _ _ => none
  | .err e _ => some e

/-- The pipeline state at the end of a run (at the point of the raise,
for a failed run). -/
def MResult.stateOf {α : Type} : MResult α → PState
  | .ok _ s => s
  | .err _ s => s

/-! ### Association-list primitives with `collections.defaultdict`
semantics -/

/-- First value bound to `k`, if any. -/
def alist_find {κ β : Type} [DecidableEq κ] (m : List (κ × β)) (k : κ) : Option β :=
  (m.find? (fun p => p.1 = k)).map Prod.snd

/-- `defaultdict` read access `m[k]`: an unseen key is bound to the
default value (auto-vivification); the possibly extended mapping is
returned alongside the value. -/
def dd_get {κ β : Type} [DecidableEq κ] (m : List (κ × β)) (k : κ) (default : β) :
    β × List (κ × β) :=
  match alist_find m k with
  | some v => (v, m)
  | none => (default, m ++ [(k, default)])

/-- `defaultdict` field update `m[k].f = v`: auto-vivify, then apply the
field update to the bound record. -/
def dd_update {κ β : Type} [DecidableEq κ] (m : List (κ × β)) (k : κ) (default : β)
    (f : β → β) : List (κ × β) :=
  match alist_find m k with
  | some _ => m.map (fun p => if p.1 = k then (p.1, f p.2) else p)
  | none => m ++ [(k, f default)]

/-- Plain `dict` assignment `m[k] = v` (used by `normal_capture_to_vcf`,
which is an ordinary dict): overwrite if present, append if absent. -/
def dict_set {κ β : Type} [DecidableEq κ] (m : List (κ × β)) (k : κ) (v : β) :
    List (κ × β) :=
  match alist_find m k with
  | some _ => m.map (fun p => if p.1 = k then (p.1, v) else p)
  | none => m ++ [(k, v)]

/-! ### ClinseqPipeline ledger accessors (clinseq.py lines 117-221) -/

/-- clinseq.py `set_germline_vcf`: register the germline VCF for a
normal capture (plain dict assignment). -/
def set_germline_vcf (normal_capture : UniqueCapture) (vcf_filename : String)
    (s : PState) : PState :=
  let m := dict_set s.normal_capture_to_vcf normal_capture vcf_filename
  { s with normal_capture_to_vcf := m }

/-- clinseq.py `get_germline_vcf`: the registered germline VCF for a
normal capture, or `None` when none is registered (the source guards
the read with a membership test, so the plain dict is not modified). -/
def get_germline_vcf (s : PState) (normal_capture : UniqueCapture) : Option String :=
  alist_find s.normal_capture_to_vcf normal_capture

/-- clinseq.py `set_capture_bam`: `self.capture_to_results[unique_capture].merged_bamfile = bam`
— a plain field assignment on the (auto-vivified) defaultdict entry. -/
def set_capture_bam (unique_capture : UniqueCapture) (bam : String) (s : PState) :
    PState :=
  let m := dd_update s.capture_to_results unique_capture ({} : SinglePanelResults)
    (fun r => { r with merged_bamfile := some bam })
  { s with capture_to_results := m }

/-- clinseq.py `set_capture_cnr`. -/
def set_capture_cnr (unique_capture : UniqueCapture) (cnr : String) (s : PState) :
    PState :=
  let m := dd_update s.capture_to_results unique_capture ({} : SinglePanelResults)
    (fun r => { r with cnr := some cnr })
  { s with capture_to_results := m }

/-- clinseq.py `set_capture_cns`. -/
def set_capture_cns (unique_capture : UniqueCapture) (cns : String) (s : PState) :
    PState :=
  let m := dd_update s.capture_to_results unique_capture ({} : SinglePanelResults)
    (fun r => { r with cns := some cns })
  { s with capture_to_results := m }

/-- clinseq.py line 709: `self.capture_to_results[unique_capture].cov_qc_call = ...`. -/
def set_capture_cov_qc_call (unique_capture : UniqueCapture) (v : String) (s : PState) :
    PState :=
  let m := dd_update s.capture_to_results unique_capture ({} : SinglePanelResults)
    (fun r => { r with cov_qc_call := some v })
  { s with capture_to_results := m }

/-- clinseq.py `get_all_unique_captures`: `self.capture_to_results.keys()`. -/
def get_all_unique_captures (s : PState) : List UniqueCapture :=
  s.capture_to_results.map Prod.fst

/-- clinseq.py `get_unique_normal_captures`: captures whose first tuple
component (the sample type) equals `"N"`. -/
def get_unique_normal_captures (s : PState) : List UniqueCapture :=
  (get_all_unique_captures s).filter (fun c => c.sample_type = "N")

/-- clinseq.py `get_unique_cancer_captures`: captures whose sample type
is not `"N"`. -/
def get_unique_cancer_captures (s : PState) : List UniqueCapture :=
  (get_all_unique_captures s).filter (fun c => c.sample_type ≠ "N")

/-- clinseq.py `get_unique_tumor_captures`: captures whose sample type
equals `"T"`. -/
def get_unique_tumor_captures (s : PState) : List UniqueCapture :=
  (get_all_unique_captures s).filter (fun c => c.sample_type = "T")

/-- clinseq.py `get_capture_bam`: if the capture is among the ledger
keys, return the `merged_bamfile` of its (defaultdict) entry — the
membership guard means the read access never vivifies a fresh entry —
otherwise return `None`. -/
def get_capture_bam (s : PState) (unique_capture : UniqueCapture) :
    Option String × PState :=
  if unique_capture ∈ get_all_unique_captures s then
    let (r, m) := dd_get s.capture_to_results unique_capture {}
    (r.merged_bamfile, { s with capture_to_results := m })
  else
    (none, s)

/-- `get_capture_bam` lifted into the configuration monad. -/
def get_capture_bamM (unique_capture : UniqueCapture) : M (Option String) :=
  fun s =>
    let (b, s') := get_capture_bam s unique_capture
    .ok b s'

/-- clinseq.py `get_vep`: truthiness of `refdata['vep_dir']`. -/
def get_vep (rd : RefData) : Bool :=
  rd.vep_dir.isSome

/-- clinseq.py `get_capture_name`: two-letter capture kit code to
capture kit name; an unknown code raises `KeyError` from the dict
lookup. -/
def get_capture_name (capture_kit_code : String) : Except PyErr String :=
  if capture_kit_code = "WG" then .ok "lowpass_wgs"
  else
    match alist_find
      [("CS", "clinseq_v3_targets"), ("CZ", "clinseq_v4"), ("EX", "EXOMEV3"),
       ("EO", "EXOMEV1"), ("RF", "fusion_v1"), ("CC", "core_design"),
       ("CD", "discovery_coho"), ("CB", "big_design"), ("AL", "alascca_targets"),
       ("TT", "test-regions"), ("CP", "progression"), ("CM", "monitor")]
      capture_kit_code with
    | some n => .ok n
    | none => .error (.keyError capture_kit_code)

/-- clinseq.py `get_all_clinseq_barcodes`: the panel barcodes,
tumor then normal then cfDNA (the source's trailing `filter` drops
`None` entries; barcodes are modelled as strings, so there are none). -/
def get_all_clinseq_barcodes (sd : SampleData) : List String :=
  sd.panel.T ++ sd.panel.N ++ sd.panel.CFDNA

/-- Grouping loop of `get_unique_capture_to_clinseq_barcodes`:
append each barcode to the (auto-vivified) entry of its parsed capture. -/
def group_barcodes :
    List String → List (UniqueCapture × List String) → List (UniqueCapture × List String)
  | [], acc => acc
  | bc :: rest, acc =>
      group_barcodes rest (dd_update acc (parse_capture_tuple bc) [] (fun l => l ++ [bc]))

/-- clinseq.py `get_unique_capture_to_clinseq_barcodes`: all panel
barcodes grouped by unique capture, in insertion order. -/
def get_unique_capture_to_clinseq_barcodes (sd : SampleData) :
    List (UniqueCapture × List String) :=
  group_barcodes (get_all_clinseq_barcodes sd) []

/-! ### Job registration and the panel-analysis orchestrator -/

/-- The job-graph builder's `add`: register a job node.  (Duplicate-name
rejection belongs to the external execution engine and is not exercised
by the claims.) -/
def add (job : Job) : M Unit :=
  modifyS (fun s => { s with jobs := s.jobs ++ [job] })

/-- Modelled from the spec: `autoseq.tools.alignment.align_library` is
not under src/.  Per §4.5 step 2 it configures alignment of one
barcode's read pairs against the reference and returns the resulting
bam path, placed in the supplied output directory. -/
def align_library (fq1_files fq2_files : Option (List String)) (lib ref outdir : String) :
    M String := do
  let bam := outdir ++ "/" ++ lib ++ ".bam"
  add { kind := "align", name := "align-" ++ lib,
        inputs := ((fq1_files.getD []) ++ (fq2_files.getD [])).map some ++ [some ref],
        outputs := [bam] }
  pure bam

/-- clinseq.py `merge_and_rm_dup` (lines 297-335): line 313 builds
`capture_str` from `unique_capture.prep_kit_id` — an attribute the
declared four-field capture key does not have — so the step raises
`AttributeError` there, before any merging or duplicate-marking job is
configured or a bam registered.  The rest of the body (dead code under
the declared key) is translated below it: Picard merging, duplicate
marking, the ledger registration and the metrics-file append.  (The
markdups job's name is left to the tool wrapper's default; the source
does not set it.) -/
def merge_and_rm_dup (outdir : String) (unique_capture : UniqueCapture)
    (input_bams : List String) : M Unit := do
  let sample_str := unique_capture.sample_type ++ "-" ++ unique_capture.sample_id
  let prep ← liftExcept (getattrUniqueCapture unique_capture "prep_kit_id")
  let capture_str := sample_str ++ "-" ++ prep ++ "-" ++
    unique_capture.capture_kit_id
  let merged_bam_filename := outdir ++ "/bams/panel/" ++ capture_str ++ ".bam"
  add { kind := "PicardMergeSamFiles", name := "picard-mergebams-" ++ sample_str,
        inputs := input_bams.map some, outputs := [merged_bam_filename],
        is_intermediate := true }
  let mark_dups_bam_filename := outdir ++ "/bams/panel/" ++ capture_str ++ "-nodups.bam"
  let mark_dups_metrics_filename :=
    outdir ++ "/qc/picard/panel/" ++ capture_str ++ "-markdups-metrics.txt"
  add { kind := "PicardMarkDuplicates",
        inputs := [some merged_bam_filename],
        outputs := [mark_dups_bam_filename, mark_dups_metrics_filename] }
  modifyS (set_capture_bam unique_capture mark_dups_bam_filename)
  modifyS (fun s => { s with qc_files := s.qc_files ++ [mark_dups_metrics_filename] })

/-- clinseq.py `get_all_fastq_files`: `find_fastqs` is called per
barcode and each resulting `(fq1s, fq2s)` pair is appended to the list
(the source uses `append`, not `extend`, so the list holds pairs). -/
def get_all_fastq_files (env : Env) (sd : SampleData) :
    List (Option (List String) × Option (List String)) :=
  (get_all_clinseq_barcodes sd).map env.find_fastqs

/-- The `for fq in ...` loop of `configure_fastq_qcs`.  Each iteration
first evaluates `os.path.basename(fq)` where `fq` is a `(fq1s, fq2s)`
pair, and `posixpath.basename` immediately calls `fq.rfind` — which a
tuple does not have, so the first iteration raises `AttributeError`
before any FastQC job is built. -/
def fastq_qc_loop :
    List (Option (List String) × Option (List String)) → List String → M (List String)
  | [], acc => pure acc
  | _ :: _, _ => raiseErr (.attributeError "rfind")

/-- clinseq.py `configure_fastq_qcs`: accumulate FastQC output names in
a local list and return it; the pipeline-wide `qc_files` list is never
touched. -/
def configure_fastq_qcs (env : Env) (sd : SampleData) : M (List String) :=
  fastq_qc_loop (get_all_fastq_files env sd) []

/-- clinseq.py `configure_align_and_merge`: for every unique capture,
align each backing barcode's read pairs and merge/deduplicate the
results. -/
def configure_align_and_merge (env : Env) (rd : RefData) (sd : SampleData)
    (outdir : String) : M Unit := do
  let capture_to_barcodes := get_unique_capture_to_clinseq_barcodes sd
  capture_to_barcodes.forM (fun p => do
    let curr_bamfiles ← p.2.mapM (fun clinseq_barcode =>
      align_library (env.find_fastqs clinseq_barcode).1
        (env.find_fastqs clinseq_barcode).2
        clinseq_barcode rd.bwaIndex (outdir ++ "/bams/panel"))
    merge_and_rm_dup outdir p.1 curr_bamfiles)

/-- clinseq.py `call_germline_variants` (lines 386-424): after the
capture-kit-name lookup (line 395, a `KeyError` for unknown codes),
line 397 builds `capture_str` from `normal_capture.prep_kit_id` — an
attribute the declared four-field capture key does not have — so the
step raises `AttributeError` there, before the Freebayes job is built
or any germline VCF registered.  The rest of the body (dead code under
the declared key) is translated below it: Freebayes calling, then, if
`refdata['vep_dir']` is set, VEP with the annotated VCF registered as
the germline VCF, else the raw Freebayes output registered. -/
def call_germline_variants (rd : RefData) (outdir : String)
    (normal_capture : UniqueCapture) (bam : Option String) : M Unit := do
  let targets ← liftExcept (get_capture_name normal_capture.capture_kit_id)
  let prep ← liftExcept (getattrUniqueCapture normal_capture "prep_kit_id")
  let capture_str := normal_capture.sample_id ++ "-" ++
    prep ++ "-" ++ normal_capture.capture_kit_id
  let freebayes_output := outdir ++ "/variants/" ++ capture_str ++ ".freebayes-germline.vcf.gz"
  add { kind := "Freebayes", name := "freebayes-germline-" ++ capture_str,
        inputs := [bam, some rd.reference_genome,
                   some (rd.targets targets).targets_bed_slopped20],
        outputs := [freebayes_output] }
  match rd.vep_dir with
  | some vep_dir => do
      let vep_output_vcf :=
        outdir ++ "/variants/" ++ capture_str ++ ".freebayes-germline.vep.vcf.gz"
      add { kind := "VEP", name := "vep-freebayes-germline-" ++ capture_str,
            inputs := [some freebayes_output, some rd.reference_genome, some vep_dir],
            outputs := [vep_output_vcf] }
      modifyS (set_germline_vcf normal_capture vep_output_vcf)
  | none =>
      modifyS (set_germline_vcf normal_capture freebayes_output)

/-! ### Paired cancer-vs-normal analyses -/

/-- Update the (auto-vivified) defaultdict entry of a
(normal, cancer) pair. -/
def set_pair_field (normal_capture cancer_capture : UniqueCapture)
    (f : CancerVsNormalPanelResults → CancerVsNormalPanelResults) (s : PState) :
    PState :=
  let m := dd_update s.normal_cancer_pair_to_results (normal_capture, cancer_capture)
    ({} : CancerVsNormalPanelResults) f
  { s with normal_cancer_pair_to_results := m }

/-- Modelled from the spec:
`autoseq.tools.variantcalling.call_somatic_variants` is not under src/.
Per §4.5 step 5 it configures the somatic variant calling job group for
one capture pair and returns the somatic VCF; §4.5 conditions no part
of its job-graph shape on annotation availability, so the `vep` flag it
receives does not alter the configured jobs (the germline branch of
`call_germline_variants` is the spec's only annotation-dependent
point).  The output path follows the variants-category convention with
the `"{tumor}-{normal}"` pair renderer. -/
def call_somatic_variants (tbam nbam : Option String) (tlib nlib : String)
    (_target_name : String) (outdir : String) (_vep : Bool) : M String := do
  let out := outdir ++ "/variants/" ++ tlib ++ "-" ++ nlib ++ ".vardict-somatic.vcf.gz"
  add { kind := "somatic-calling", name := "vardict-" ++ tlib ++ "-" ++ nlib,
        inputs := [tbam, nbam], outputs := [out] }
  pure out

/-- clinseq.py `configure_somatic_calling` (lines 491-499): configure
somatic calling for the pair (note the source passes the normal bam as
`tbam` and the cancer bam as `nbam`), then register the result under
`self.normal_cancer_pair_to_results[(normal, cancer_capture)]` — where
`normal` is an unbound name (the parameter is `normal_capture`), so
evaluating the key tuple raises `NameError` and the registration never
happens. -/
def configure_somatic_calling (rd : RefData) (outdir : String)
    (normal_capture cancer_capture : UniqueCapture) : M Unit := do
  let nb ← get_capture_bamM normal_capture
  let cb ← get_capture_bamM cancer_capture
  let target_name ← liftExcept (get_capture_name cancer_capture.capture_kit_id)
  let _somatic_variants ← call_somatic_variants nb cb
    (compose_sample_str cancer_capture) (compose_sample_str normal_capture)
    target_name outdir (get_vep rd)
  raiseErr (.nameError "normal")

/-- clinseq.py `configure_vcf_add_sample`: configure enrichment of the
normal's germline VCF with the cancer sample's allele fractions and
register the output under the pair. -/
def configure_vcf_add_sample (outdir : String)
    (normal_capture cancer_capture : UniqueCapture) : M Unit := do
  let cb ← get_capture_bamM cancer_capture
  let s ← getS
  let input_vcf := get_germline_vcf s normal_capture
  let normal_sample_str := compose_sample_str normal_capture
  let cancer_sample_str := compose_sample_str cancer_capture
  let output := outdir ++ "/variants/" ++ normal_sample_str ++ "-and-" ++
    cancer_sample_str ++ ".germline-variants-with-somatic-afs.vcf.gz"
  add { kind := "VcfAddSample", name := "vcf-add-sample-" ++ cancer_sample_str,
        inputs := [cb, input_vcf], outputs := [output] }
  modifyS (set_pair_field normal_capture cancer_capture
    (fun r => { r with vcf_addsample_output := some output }))

/-- clinseq.py `configure_msi_sensor`: configure the MSI sensor for the
pair.  The MSI sites are looked up under the two-letter capture kit
code (not under `get_capture_name`), and the output is written directly
under the output directory (`"{}/msisensor-{}-{}.tsv"` — no category
subdirectory). -/
def configure_msi_sensor (rd : RefData) (outdir : String)
    (normal_capture cancer_capture : UniqueCapture) : M Unit := do
  let msi_sites := (rd.targets cancer_capture.capture_kit_id).msisites
  let nb ← get_capture_bamM normal_capture
  let cb ← get_capture_bamM cancer_capture
  let normal_capture_str := compose_sample_str normal_capture
  let cancer_capture_str := compose_sample_str cancer_capture
  let output := outdir ++ "/msisensor-" ++ normal_capture_str ++ "-" ++
    cancer_capture_str ++ ".tsv"
  modifyS (set_pair_field normal_capture cancer_capture
    (fun r => { r with msi_output := some output }))
  add { kind := "MsiSensor",
        name := "msisensor-" ++ normal_capture_str ++ "-" ++ cancer_capture_str,
        inputs := [some msi_sites, nb, cb], outputs := [output] }

/-- clinseq.py `configure_hz_conc`: configure heterozygote concordance
of the pair and register the output under the pair. -/
def configure_hz_conc (rd : RefData) (outdir : String)
    (normal_capture cancer_capture : UniqueCapture) : M Unit := do
  let s ← getS
  let input_vcf := get_germline_vcf s normal_capture
  let cb ← get_capture_bamM cancer_capture
  let output := outdir ++ "/bams/" ++ compose_sample_str cancer_capture ++ "-" ++
    compose_sample_str normal_capture ++ "-hzconcordance.txt"
  modifyS (set_pair_field normal_capture cancer_capture
    (fun r => { r with hzconcordance_output := some output }))
  add { kind := "HeterzygoteConcordance",
        name := "hzconcordance-" ++ compose_sample_str cancer_capture,
        inputs := [input_vcf, cb, some rd.reference_genome,
                   some (rd.targets cancer_capture.capture_kit_id).targets_interval_list_slopped20],
        outputs := [output] }

/-- clinseq.py `configure_contest_vcf_generation` (lines 550-565): the
output is `"{}/contamination/pop_vcf_{}-{}.vcf".format(normal_capture_str, cancer_capture_str)`
— a three-placeholder template given only the two capture strings (the
output directory is missing from the argument list), so the format call
raises `IndexError` before the job is built.  (The dead code after it
would also assign the capture tuples themselves, not their target bed
files, to the two target-region inputs.) -/
def configure_contest_vcf_generation (rd : RefData)
    (normal_capture cancer_capture : UniqueCapture) : M String := do
  let normal_capture_str := compose_sample_str normal_capture
  let cancer_capture_str := compose_sample_str cancer_capture
  match pyFormat contestVcfTemplate [normal_capture_str, cancer_capture_str] with
  | none => raiseErr .indexError
  | some output => do
      add { kind := "CreateContestVCFs",
            name := "contest_pop_vcf_" ++ normal_capture_str ++ "-" ++ cancer_capture_str,
            inputs := [some rd.swegene_common], outputs := [output] }
      pure output

/-- clinseq.py `configure_contest`: configure ContEst of capture 1
evaluated against capture 2 over the intersection population VCF. -/
def configure_contest (rd : RefData) (outdir : String)
    (library_capture_1 library_capture_2 : UniqueCapture) (contest_vcf : String) :
    M String := do
  let b1 ← get_capture_bamM library_capture_1
  let b2 ← get_capture_bamM library_capture_2
  let output := outdir ++ "/contamination/" ++ compose_sample_str library_capture_1 ++
    ".contest.txt"
  add { kind := "ContEst", name := "contest_tumor/" ++ compose_sample_str library_capture_1,
        inputs := [some rd.reference_genome, b1, b2, some contest_vcf],
        outputs := [output] }
  pure output

/-- clinseq.py `configure_contamination_estimate` (lines 589-611):
population-VCF generation (which raises `IndexError`, see
`configure_contest_vcf_generation`), then the two directional ContEst
runs, then the QC-call derivation — whose call site (line 603) is
`self.configure_contam_qc_call(self, ...)`, passing `self` twice, so it
would raise `TypeError`; the registrations after it are likewise dead
code. -/
def configure_contamination_estimate (rd : RefData) (outdir : String)
    (normal_capture cancer_capture : UniqueCapture) : M Unit := do
  let intersection_contest_vcf ←
    configure_contest_vcf_generation rd normal_capture cancer_capture
  let cancer_vs_normal_contest_output ←
    configure_contest rd outdir cancer_capture normal_capture intersection_contest_vcf
  let normal_vs_cancer_contest_output ←
    configure_contest rd outdir normal_capture cancer_capture intersection_contest_vcf
  let cancer_contam_call ← (raiseErr
    (.typeError "configure_contam_qc_call() takes exactly 2 arguments (3 given)") :
    M String)
  modifyS (set_pair_field normal_capture cancer_capture
    (fun r => { r with normal_contest_output := some normal_vs_cancer_contest_output }))
  modifyS (set_pair_field normal_capture cancer_capture
    (fun r => { r with cancer_contest_output := some cancer_vs_normal_contest_output }))
  modifyS (set_pair_field normal_capture cancer_capture
    (fun r => { r with cancer_contam_call := some cancer_contam_call }))

/-- clinseq.py `configure_panel_analysis_cancer_vs_normal`: the five
paired analyses, in source order: somatic calling, germline-VCF
enrichment, MSI sensor, heterozygote concordance, contamination
estimate. -/
def configure_panel_analysis_cancer_vs_normal (rd : RefData) (outdir : String)
    (normal_capture cancer_capture : UniqueCapture) : M Unit := do
  configure_somatic_calling rd outdir normal_capture cancer_capture
  configure_vcf_add_sample outdir normal_capture cancer_capture
  configure_msi_sensor rd outdir normal_capture cancer_capture
  configure_hz_conc rd outdir normal_capture cancer_capture
  configure_contamination_estimate rd outdir normal_capture cancer_capture

/-- clinseq.py `configure_panel_analysis_with_normal`: validate the
sample type (the failed check would itself raise `TypeError`, since the
message concatenates a string with the capture tuple), configure
germline calling on the capture's merged bam, then configure a paired
analysis against every unique cancer capture. -/
def configure_panel_analysis_with_normal (rd : RefData) (outdir : String)
    (normal_capture : UniqueCapture) : M Unit := do
  if normal_capture.sample_type ≠ "N" then
    raiseErr (.typeError "cannot concatenate str and tuple objects")
  else do
    let normal_bam ← get_capture_bamM normal_capture
    call_germline_variants rd outdir normal_capture normal_bam
    let s ← getS
    (get_unique_cancer_captures s).forM
      (configure_panel_analysis_cancer_vs_normal rd outdir normal_capture)

/-- clinseq.py `configure_single_capture_analysis`: configure CNV-kit
for one capture and register the ratio/segment outputs (the source
registers them before adding the job). -/
def configure_single_capture_analysis (rd : RefData) (outdir : String)
    (unique_capture : UniqueCapture) : M Unit := do
  let input_bam ← get_capture_bamM unique_capture
  let sample_str := compose_sample_str unique_capture
  let targets ← liftExcept (get_capture_name unique_capture.capture_kit_id)
  let output_cnr := outdir ++ "/cnv/" ++ sample_str ++ ".cnr"
  let output_cns := outdir ++ "/cnv/" ++ sample_str ++ ".cns"
  let ref_input :=
    match (rd.targets targets).cnvkit_ref with
    | some r => r
    | none => (rd.targets targets).targets_bed_slopped20
  modifyS (set_capture_cnr unique_capture output_cnr)
  modifyS (set_capture_cns unique_capture output_cns)
  add { kind := "CNVkit", name := "cnvkit/" ++ sample_str,
        inputs := [input_bam, some ref_input], outputs := [output_cnr, output_cns] }

/-- clinseq.py `configure_panel_analyses`: alignment and merging for
every unique capture, CNV analysis for every cancer capture, then the
per-normal-capture group (germline calling plus the cancer-vs-normal
pairing fan-out). -/
def configure_panel_analyses (env : Env) (rd : RefData) (sd : SampleData)
    (outdir : String) : M Unit := do
  configure_align_and_merge env rd sd outdir
  let s ← getS
  (get_unique_cancer_captures s).forM (configure_single_capture_analysis rd outdir)
  let s ← getS
  (get_unique_normal_captures s).forM (configure_panel_analysis_with_normal rd outdir)

/-! ### QC orchestration -/

/-- clinseq.py `configure_panel_qc`: the six per-capture QC jobs; the
coverage QC call is registered in the capture's ledger entry and the
six metric paths are returned. -/
def configure_panel_qc (rd : RefData) (outdir : String)
    (unique_capture : UniqueCapture) : M (List String) := do
  let bam ← get_capture_bamM unique_capture
  let targets ← liftExcept (get_capture_name unique_capture.capture_kit_id)
  let capture_str := compose_sample_str unique_capture
  let isize_out := outdir ++ "/qc/picard/panel/" ++ capture_str ++ ".picard-insertsize.txt"
  add { kind := "PicardCollectInsertSizeMetrics", name := "picard-isize-" ++ capture_str,
        inputs := [bam], outputs := [isize_out] }
  let oxog_out := outdir ++ "/qc/picard/panel/" ++ capture_str ++ ".picard-oxog.txt"
  add { kind := "PicardCollectOxoGMetrics", name := "picard-oxog-" ++ capture_str,
        inputs := [bam, some rd.reference_genome], outputs := [oxog_out] }
  let hsmetrics_out := outdir ++ "/qc/picard/panel/" ++ capture_str ++ ".picard-hsmetrics.txt"
  add { kind := "PicardCollectHsMetrics", name := "picard-hsmetrics-" ++ capture_str,
        inputs := [bam, some rd.reference_genome,
                   some (rd.targets targets).targets_interval_list_slopped20,
                   some (rd.targets targets).targets_interval_list_slopped20],
        outputs := [hsmetrics_out] }
  let sambamba_out := outdir ++ "/qc/sambamba/" ++ capture_str ++ ".sambamba-depth-targets.txt"
  add { kind := "SambambaDepth", name := "sambamba-depth-" ++ capture_str,
        inputs := [some (rd.targets targets).targets_bed_slopped20, bam],
        outputs := [sambamba_out] }
  let coverage_hist_out := outdir ++ "/qc/" ++ capture_str ++ ".coverage-histogram.txt"
  add { kind := "CoverageHistogram", name := "alascca-coverage-hist/" ++ capture_str,
        inputs := [some (rd.targets targets).targets_bed_slopped20, bam],
        outputs := [coverage_hist_out] }
  let coverage_qc_call_out := outdir ++ "/qc/" ++ capture_str ++ ".coverage-qc-call.json"
  add { kind := "CoverageCaveat", name := "coverage-qc-call/" ++ capture_str,
        inputs := [some coverage_hist_out], outputs := [coverage_qc_call_out] }
  modifyS (set_capture_cov_qc_call unique_capture coverage_qc_call_out)
  pure [isize_out, oxog_out, hsmetrics_out, sambamba_out, coverage_hist_out,
        coverage_qc_call_out]

/-- clinseq.py `configure_all_panel_qcs`: per-capture QC for every
unique capture, extending the pipeline-wide QC file list with each
returned batch. -/
def configure_all_panel_qcs (rd : RefData) (outdir : String) : M Unit := do
  let s ← getS
  (get_all_unique_captures s).forM (fun unique_capture => do
    let files ← configure_panel_qc rd outdir unique_capture
    modifyS (fun s => { s with qc_files := s.qc_files ++ files }))

/-- clinseq.py `configure_multi_qc`: one aggregation job whose input
file list is the pipeline-wide `qc_files` list as it stands. -/
def configure_multi_qc (sd : SampleData) (outdir : String) : M Unit := do
  let s ← getS
  add { kind := "MultiQC", name := "multiqc-" ++ sd.sdid,
        inputs := s.qc_files.map some,
        outputs := [outdir ++ "/multiqc/" ++ sd.sdid ++ "-multiqc"] }

/-! ### The ALASCCA report specialization (alascca.py) -/

/-- Monadic `defaultdict` access to a pair's results
(`self.normal_cancer_pair_to_results[(a, b)]`): auto-vivifies. -/
def dd_getM_pair (a b : UniqueCapture) : M CancerVsNormalPanelResults :=
  fun s =>
    let (v, m) := dd_get s.normal_cancer_pair_to_results (a, b)
      ({} : CancerVsNormalPanelResults)
    .ok v { s with normal_cancer_pair_to_results := m }

/-- Monadic `defaultdict` access to a capture's results
(`self.capture_to_results[c]`): auto-vivifies. -/
def dd_getM_capture (c : UniqueCapture) : M SinglePanelResults :=
  fun s =>
    let (v, m) := dd_get s.capture_to_results c ({} : SinglePanelResults)
    .ok v { s with capture_to_results := m }

/-- alascca.py `get_normal_and_tumor_captures` (lines 52-66): raise
`ValueError` unless there is exactly one cancer (non-normal) capture
and exactly one normal capture — note the check counts *cancer*
captures, not tumor captures — then return the pair.  Both components
are read from `get_unique_normal_captures()` (line 64 reads the normal
list again instead of the tumor list), so the returned
"tumor" capture is the normal capture. -/
def get_normal_and_tumor_captures : M (UniqueCapture × UniqueCapture) := do
  let s ← getS
  if (get_unique_cancer_captures s).length ≠ 1 ∨
     (get_unique_normal_captures s).length ≠ 1 then
    raiseErr (.valueError "Invalid pipeline state for configuration of ALASCCA CNA.")
  else do
    let normal_capture := (get_unique_normal_captures s).headD ⟨"", "", "", ""⟩
    let tumor_capture := (get_unique_normal_captures s).headD ⟨"", "", "", ""⟩
    pure (normal_capture, tumor_capture)

/-- alascca.py `configure_alascca_cna` (lines 68-90): read the pair's
somatic and enriched germline VCFs and the tumor capture's CNV
outputs, then configure the CNA/purity plot job.  Line 76 reads
`tumor_results.cna` — `SinglePanelResults` has no such attribute (the
segment field is `cns`), so the read raises `AttributeError` before the
job is built. -/
def configure_alascca_cna (rd : RefData) (outdir : String)
    (normal_capture tumor_capture : UniqueCapture) : M (String × String) := do
  let tumor_vs_normal_results ← dd_getM_pair normal_capture tumor_capture
  let tumor_results ← dd_getM_capture tumor_capture
  let input_somatic_vcf := tumor_vs_normal_results.somatic_vcf
  let input_germline_vcf := tumor_vs_normal_results.vcf_addsample_output
  let input_cnr := tumor_results.cnr
  let input_cns ← liftExcept (getattrSinglePanelResults tumor_results "cna")
  let tumor_str := compose_sample_str tumor_capture
  let output_cna := outdir ++ "/variants/" ++ tumor_str ++ "-alascca-cna.json"
  let output_purity := outdir ++ "/variants/" ++ tumor_str ++ "-alascca-purity.json"
  let output_png := outdir ++ "/qc/" ++ tumor_str ++ "-alascca-cna.png"
  add { kind := "AlasccaCNAPlot", name := "alascca-cna/" ++ tumor_str,
        inputs := [input_somatic_vcf, input_germline_vcf, input_cnr, input_cns,
                   some rd.chrsizes],
        outputs := [output_cna, output_purity, output_png] }
  pure (output_cna, output_purity)

/-- alascca.py `configure_compile_metadata`: referral-database metadata
compilation keyed by the two sample ids. -/
def configure_compile_metadata (referral_db_conf addresses outdir : String)
    (normal_capture tumor_capture : UniqueCapture) : M String := do
  let blood_barcode := normal_capture.sample_id
  let tumor_barcode := tumor_capture.sample_id
  let metadata_json := outdir ++ "/report/" ++ blood_barcode ++ "-" ++ tumor_barcode ++
    ".metadata.json"
  add { kind := "CompileMetadata",
        name := "compile-metadata/" ++ tumor_barcode ++ "-" ++ blood_barcode,
        inputs := [some referral_db_conf, some addresses], outputs := [metadata_json] }
  pure metadata_json

/-- alascca.py `configure_compile_genomic_json`: merge the somatic
calls, CNA calls, MSI output and the three QC verdicts into one
genomic-findings artifact. -/
def configure_compile_genomic_json (outdir : String)
    (normal_capture tumor_capture : UniqueCapture)
    (alascca_cna_output alascca_cna_purity_call : String) : M String := do
  let tumor_vs_normal_results ← dd_getM_pair normal_capture tumor_capture
  let tumor_results ← dd_getM_capture tumor_capture
  let normal_results ← dd_getM_capture normal_capture
  let blood_barcode := normal_capture.sample_id
  let tumor_barcode := tumor_capture.sample_id
  let genomic_json := outdir ++ "/report/" ++ blood_barcode ++ "-" ++ tumor_barcode ++
    ".genomic.json"
  add { kind := "CompileAlasccaGenomicJson",
        name := "compile-genomic/" ++ tumor_barcode ++ "-" ++ blood_barcode,
        inputs := [tumor_vs_normal_results.somatic_vcf, some alascca_cna_output,
                   tumor_vs_normal_results.msi_output, some alascca_cna_purity_call,
                   tumor_vs_normal_results.cancer_contam_call,
                   tumor_results.cov_qc_call, normal_results.cov_qc_call],
        outputs := [genomic_json] }
  pure genomic_json

/-- alascca.py `configure_write_alascca_report`: final PDF rendering
from the metadata and genomic-findings artifacts. -/
def configure_write_alascca_report (outdir : String)
    (normal_capture tumor_capture : UniqueCapture)
    (metadata_json genomic_json : String) : M Unit := do
  let blood_barcode := normal_capture.sample_id
  let tumor_barcode := tumor_capture.sample_id
  let pdf := outdir ++ "/report/AlasccaReport-" ++ blood_barcode ++ "-" ++
    tumor_barcode ++ ".pdf"
  add { kind := "WriteAlasccaReport",
        name := "writeAlasccaPdf/" ++ tumor_barcode ++ "-" ++ blood_barcode,
        inputs := [some genomic_json, some metadata_json], outputs := [pdf] }

/-- alascca.py `configure_alascca_report_generation`: metadata
compilation, genomic-findings compilation, report rendering. -/
def configure_alascca_report_generation (referral_db_conf addresses outdir : String)
    (normal_capture tumor_capture : UniqueCapture)
    (alascca_cna_output alascca_cna_purity_call : String) : M Unit := do
  let metadata_json ← configure_compile_metadata referral_db_conf addresses outdir
    normal_capture tumor_capture
  let genomic_json ← configure_compile_genomic_json outdir normal_capture tumor_capture
    alascca_cna_output alascca_cna_purity_call
  configure_write_alascca_report outdir normal_capture tumor_capture
    metadata_json genomic_json

/-- alascca.py `configure_alascca_specific_analysis` (lines 155-164):
capture retrieval, CNA/purity estimation, report generation.  (The
report-generation call on line 164 is written with a stray extra comma
in its argument list — invalid Python syntax; the call is translated
with the four intended arguments.  It is dead code in any case: every
run raises in `configure_alascca_cna` or earlier.) -/
def configure_alascca_specific_analysis (rd : RefData)
    (referral_db_conf addresses outdir : String) : M Unit := do
  let (normal_capture, tumor_capture) ← get_normal_and_tumor_captures
  let (alascca_cna_output, alascca_cna_purity) ←
    configure_alascca_cna rd outdir normal_capture tumor_capture
  configure_alascca_report_generation referral_db_conf addresses outdir
    normal_capture tumor_capture alascca_cna_output alascca_cna_purity

/-! Part: the output-path convention of §4.4.  A path follows the
convention when it reads `{outdir}/{category}/...` with the category
drawn from the fixed list. -/

/-- The category directories of the output-path convention. -/
def path_categories : List String :=
  ["bams", "cnv", "variants", "qc", "contamination", "report", "msi", "multiqc"]

/-- Longest slash-free prefix of a character list. -/
def takeUntilSlash : List Char → List Char
  | [] => []
  | c :: rest => if c = '/' then [] else c :: takeUntilSlash rest

/-- The category component of a path (as character lists): strip the
output-directory prefix and a slash, then take up to the next slash. -/
def catOf (od p : List Char) : Option (List Char) :=
  if p.take od.length = od then
    match p.drop od.length with
    | c :: rest => if c = '/' then some (takeUntilSlash rest) else none
    | [] => none
  else none

/-- The category component of a path under the given output directory,
or `none` when the path does not start with `{outdir}/`. -/
def pathCategory (outdir p : String) : Option String :=
  (catOf outdir.data p.data).map (fun l => ⟨l⟩)

/-- Whether a path follows the `{outdir}/{category}/...` convention
with a category from `path_categories`. -/
def followsPathConvention (outdir p : String) : Bool :=
  match pathCategory outdir p with
  | some c => path_categories.contains c
  | none => false

/-- Whether a path has the claim's literal template form
`{outdir}/{category}/{capture_str_or_pair_str}-{suffix}`, for some
category from `path_categories` and some capture or pair string from
the given list of canonical-renderer outputs. -/
def hasTemplateForm (outdir : String) (captures : List String) (p : String) : Bool :=
  path_categories.any (fun cat => captures.any (fun cap =>
    p.data.take (outdir ++ "/" ++ cat ++ "/" ++ cap ++ "-").data.length =
      (outdir ++ "/" ++ cat ++ "/" ++ cap ++ "-").data))

/-- The jobs a configuration step appends to the graph when run from
the given state (on an aborted run: the jobs added before the raise). -/
def jobsAdded {α : Type} (m : M α) (s : PState) : List Job :=
  (m s).stateOf.jobs.drop s.jobs.length

/-- All declared output paths of the jobs a configuration step appends. -/
def outputsAdded {α : Type} (m : M α) (s : PState) : List String :=
  ((jobsAdded m s).map Job.outputs).flatten

/-! Part: concrete fixtures — a two-capture cohort (one normal, one
tumor), its reference data, and derived pipeline states. -/

/-- Reference files for one capture kit. -/
def tiFix : TargetInfo :=
  { targets_bed_slopped20 := "/ref/targets.bed"
    targets_interval_list_slopped20 := "/ref/targets.interval_list"
    cnvkit_ref := none
    msisites := "/ref/msisites.txt" }

/-- A complete reference-data bundle with the annotation reference set. -/
def rdFix : RefData :=
  { reference_genome := "/ref/genome.fa"
    chrsizes := "/ref/chrsizes.txt"
    vep_dir := some "/ref/vep"
    swegene_common := "/ref/swegene_common.vcf"
    bwaIndex := "/ref/bwa"
    targets := fun _ => tiFix }

/-- An environment in which every barcode has one discoverable read pair. -/
def envFix : Env :=
  { libdir := "/lib"
    find_fastqs := fun bc => (some [bc ++ "_1.fastq.gz"], some [bc ++ "_2.fastq.gz"]) }

/-- The same reference bundle with the annotation reference absent. -/
def rdNoVepFix : RefData := { rdFix with vep_dir := none }

/-- Barcode of the normal capture: sample type `N`, sample id `111`,
library kit `TD`, capture kit `CS`. -/
def normalBC : String := "PB-999-XX-N-111-TD1-CS1"

/-- Barcode of the tumor capture: sample type `T`, sample id `222`. -/
def tumorBC : String := "PB-999-XX-T-222-TD1-CS1"

/-- Sample description with exactly one normal and one tumor panel barcode. -/
def sdFix : SampleData :=
  { sdid := "PB-999", panel := { N := [normalBC], T := [tumorBC], CFDNA := [] } }

/-- The unique capture parsed from `normalBC`. -/
def ncFix : UniqueCapture := ⟨"N", "111", "TD", "CS"⟩

/-- The unique capture parsed from `tumorBC`. -/
def tcFix : UniqueCapture := ⟨"T", "222", "TD", "CS"⟩

/-- A second tumor capture (for multi-tumor cohorts). -/
def tc2Fix : UniqueCapture := ⟨"T", "444", "TD", "CS"⟩

/-- A cfDNA capture (non-normal, non-tumor). -/
def cfFix : UniqueCapture := ⟨"CFDNA", "333", "TD", "CS"⟩

/-- Pipeline state whose capture index holds one normal and one cfDNA
capture — and hence no tumor capture at all. -/
def sCf : PState := { capture_to_results := [(ncFix, {}), (cfFix, {})] }

/-- Pipeline state with one normal and two tumor captures. -/
def s2T : PState := { capture_to_results := [(ncFix, {}), (tcFix, {}), (tc2Fix, {})] }

/-- Pipeline state after alignment/merging and CNV calling for the
one-normal-one-tumor cohort: merged bams and CNV outputs registered for
both captures. -/
def sPair : PState :=
  { capture_to_results :=
      [(ncFix, { merged_bamfile := some "/out/bams/panel/N-111-TD-CS-nodups.bam"
                 cnr := some "/out/cnv/N-111-TD-CS.cnr"
                 cns := some "/out/cnv/N-111-TD-CS.cns" }),
       (tcFix, { merged_bamfile := some "/out/bams/panel/T-222-TD-CS-nodups.bam"
                 cnr := some "/out/cnv/T-222-TD-CS.cnr"
                 cns := some "/out/cnv/T-222-TD-CS.cns" })] }

/-- The full panel-analysis configuration run on the two-capture cohort,
from the empty pipeline state. -/
def panelRun : MResult Unit :=
  configure_panel_analyses envFix rdFix sdFix "/out" ({} : PState)

/-- The ALASCCA report configuration run on the normal-plus-cfDNA state. -/
def alasccaRunCf : MResult Unit :=
  configure_alascca_specific_analysis rdFix "referral-db-config.json" "addresses.csv"
    "/out" sCf

/-- The ALASCCA report configuration run on the one-normal-one-tumor state. -/
def alasccaRunPair : MResult Unit :=
  configure_alascca_specific_analysis rdFix "referral-db-config.json" "addresses.csv"
    "/out" sPair

/-! Part: shared lemmas about the monad, the association-list ledger
primitives, and the path convention. -/

theorem run_bind {α β : Type} (x : M α) (f : α → M β) (s : PState) :
    (x >>= f) s = match x s with
      | .ok a s' => f a s'
      | .err e s' => .err e s' := rfl

theorem run_pure {α : Type} (a : α) (s : PState) :
    (pure a : M α) s = .ok a s := rfl

theorem alist_find_cons {k : Type} [DecidableEq k] {b : Type}
    (p : k × b) (l : List (k × b)) (c : k) :
    alist_find (p :: l) c = if p.1 = c then some p.2 else alist_find l c := by
  unfold alist_find
  by_cases hp : p.1 = c
  · rw [List.find?_cons_of_pos _ (by simp [hp]), if_pos hp]
    rfl
  · rw [List.find?_cons_of_neg _ (by simp [hp]), if_neg hp]

theorem alist_find_eq_none {k : Type} [DecidableEq k] {b : Type}
    (m : List (k × b)) (c : k) (h : c ∉ m.map Prod.fst) :
    alist_find m c = none := by
  induction m with
  | nil => rfl
  | cons p rest ih =>
      simp only [List.map_cons, List.mem_cons, not_or] at h
      rw [alist_find_cons, if_neg (fun hc => h.1 hc.symm)]
      exact ih h.2

theorem alist_find_isSome {k : Type} [DecidableEq k] {b : Type}
    (m : List (k × b)) (c : k) (h : c ∈ m.map Prod.fst) :
    (alist_find m c).isSome := by
  induction m with
  | nil => simp at h
  | cons p rest ih =>
      rw [alist_find_cons]
      by_cases hp : p.1 = c
      · simp [hp]
      · rw [if_neg hp]
        apply ih
        simp only [List.map_cons, List.mem_cons] at h
        rcases h with h | h
        · exact absurd h.symm hp
        · exact h

theorem alist_find_append_right {k : Type} [DecidableEq k] {b : Type}
    (m : List (k × b)) (c : k) (x : b) (hm : alist_find m c = none) :
    alist_find (m ++ [(c, x)]) c = some x := by
  induction m with
  | nil => simp [alist_find_cons]
  | cons p rest ih =>
      rw [alist_find_cons] at hm
      by_cases hp : p.1 = c
      · rw [if_pos hp] at hm
        exact absurd hm (by simp)
      · rw [if_neg hp] at hm
        simp only [List.cons_append, alist_find_cons, if_neg hp]
        exact ih hm

theorem alist_find_map_update {k : Type} [DecidableEq k] {b : Type}
    (m : List (k × b)) (c : k) (f : b → b) :
    alist_find (m.map (fun p => if p.1 = c then (p.1, f p.2) else p)) c =
      (alist_find m c).map f := by
  induction m with
  | nil => rfl
  | cons p rest ih =>
      by_cases hp : p.1 = c
      · simp only [List.map_cons, if_pos hp, alist_find_cons, hp, if_true]
        rfl
      · simp only [List.map_cons, if_neg hp, alist_find_cons, hp, if_false]
        exact ih

theorem alist_find_dd_update {k : Type} [DecidableEq k] {b : Type}
    (m : List (k × b)) (c : k) (d : b) (f : b → b) :
    alist_find (dd_update m c d f) c = some (f ((alist_find m c).getD d)) := by
  unfold dd_update
  cases hm : alist_find m c with
  | none => simp [hm, alist_find_append_right m c (f d) hm]
  | some v => simp [hm, alist_find_map_update]

theorem alist_find_map_set {k : Type} [DecidableEq k] {b : Type}
    (m : List (k × b)) (c : k) (v : b) :
    alist_find (m.map (fun p => if p.1 = c then (p.1, v) else p)) c =
      (alist_find m c).map (fun _ => v) := by
  induction m with
  | nil => rfl
  | cons p rest ih =>
      by_cases hp : p.1 = c
      · simp only [List.map_cons, if_pos hp, alist_find_cons, hp, if_true]
        rfl
      · simp only [List.map_cons, if_neg hp, alist_find_cons, hp, if_false]
        exact ih

theorem alist_find_dict_set {k : Type} [DecidableEq k] {b : Type}
    (m : List (k × b)) (c : k) (v : b) :
    alist_find (dict_set m c v) c = some v := by
  unfold dict_set
  cases hm : alist_find m c with
  | none => simp [hm, alist_find_append_right m c v hm]
  | some w => simp [hm, alist_find_map_set]

theorem get_capture_bam_snd (s : PState) (c : UniqueCapture) :
    (get_capture_bam s c).2 = s := by
  unfold get_capture_bam
  by_cases h : c ∈ get_all_unique_captures s
  · have hs : (alist_find s.capture_to_results c).isSome :=
      alist_find_isSome _ _ h
    obtain ⟨r, hr⟩ := Option.isSome_iff_exists.mp hs
    rw [if_pos h]
    unfold dd_get
    rw [hr]
  · rw [if_neg h]

theorem get_capture_bamM_run (c : UniqueCapture) (s : PState) :
    get_capture_bamM c s = .ok (get_capture_bam s c).1 s := by
  show MResult.ok (get_capture_bam s c).1 (get_capture_bam s c).2 =
    MResult.ok (get_capture_bam s c).1 s
  rw [get_capture_bam_snd]

theorem gnat_err_of (s : PState)
    (hcond : (get_unique_cancer_captures s).length ≠ 1 ∨
             (get_unique_normal_captures s).length ≠ 1) :
    get_normal_and_tumor_captures s =
      .err (.valueError "Invalid pipeline state for configuration of ALASCCA CNA.") s := by
  unfold get_normal_and_tumor_captures
  rw [run_bind]
  simp only [getS]
  rw [if_pos hcond]
  rfl

theorem string_data_append (a b : String) : (a ++ b).data = a.data ++ b.data := rfl

theorem string_ext {a b : String} (h : a.data = b.data) : a = b := by
  cases a
  cases b
  exact congrArg String.mk h

theorem string_append_assoc (a b c : String) : a ++ b ++ c = a ++ (b ++ c) := by
  apply string_ext
  simp [string_data_append, List.append_assoc]

theorem takeUntilSlash_append (cat rest : List Char) (h : ∀ ch ∈ cat, ch ≠ '/') :
    takeUntilSlash (cat ++ '/' :: rest) = cat := by
  induction cat with
  | nil => simp [takeUntilSlash]
  | cons c cs ih =>
      have hc : c ≠ '/' := h c (by simp)
      simp only [List.cons_append, takeUntilSlash, if_neg hc, List.append_eq]
      rw [ih (fun ch hch => h ch (by simp [hch]))]

theorem catOf_append (od cat rest : List Char) (h : ∀ ch ∈ cat, ch ≠ '/') :
    catOf od (od ++ '/' :: (cat ++ '/' :: rest)) = some cat := by
  unfold catOf
  rw [List.take_left, if_pos rfl, List.drop_left]
  simp [takeUntilSlash_append cat rest h]

theorem fpc_of (outdir p cat rest : String)
    (hdata : p.data = outdir.data ++ '/' :: (cat.data ++ '/' :: rest.data))
    (hcat : cat ∈ path_categories) (hns : ∀ ch ∈ cat.data, ch ≠ '/') :
    followsPathConvention outdir p = true := by
  unfold followsPathConvention pathCategory
  rw [show p.data = outdir.data ++ '/' :: (cat.data ++ '/' :: rest.data) from hdata]
  rw [catOf_append _ _ _ hns]
  have hmk : (⟨cat.data⟩ : String) = cat := by
    cases cat
    rfl
  simp [hmk, hcat]

theorem fpc_bams_panel (outdir rest : String) :
    followsPathConvention outdir (outdir ++ ("/bams/panel/" ++ rest)) = true := by
  apply fpc_of outdir _ "bams" ("panel/" ++ rest)
  · simp only [string_data_append, List.append_assoc]
    rfl
  · decide
  · decide

theorem fpc_qc_picard_panel (outdir rest : String) :
    followsPathConvention outdir (outdir ++ ("/qc/picard/panel/" ++ rest)) = true := by
  apply fpc_of outdir _ "qc" ("picard/panel/" ++ rest)
  · simp only [string_data_append, List.append_assoc]
    rfl
  · decide
  · decide

theorem fpc_qc_sambamba (outdir rest : String) :
    followsPathConvention outdir (outdir ++ ("/qc/sambamba/" ++ rest)) = true := by
  apply fpc_of outdir _ "qc" ("sambamba/" ++ rest)
  · simp only [string_data_append, List.append_assoc]
    rfl
  · decide
  · decide

theorem fpc_qc (outdir rest : String) :
    followsPathConvention outdir (outdir ++ ("/qc/" ++ rest)) = true := by
  apply fpc_of outdir _ "qc" rest
  · simp only [string_data_append, List.append_assoc]
    rfl
  · decide
  · decide

theorem fpc_variants (outdir rest : String) :
    followsPathConvention outdir (outdir ++ ("/variants/" ++ rest)) = true := by
  apply fpc_of outdir _ "variants" rest
  · simp only [string_data_append, List.append_assoc]
    rfl
  · decide
  · decide

theorem fpc_bams (outdir rest : String) :
    followsPathConvention outdir (outdir ++ ("/bams/" ++ rest)) = true := by
  apply fpc_of outdir _ "bams" rest
  · simp only [string_data_append, List.append_assoc]
    rfl
  · decide
  · decide

theorem fpc_cnv (outdir rest : String) :
    followsPathConvention outdir (outdir ++ ("/cnv/" ++ rest)) = true := by
  apply fpc_of outdir _ "cnv" rest
  · simp only [string_data_append, List.append_assoc]
    rfl
  · decide
  · decide

theorem fpc_contamination (outdir rest : String) :
    followsPathConvention outdir (outdir ++ ("/contamination/" ++ rest)) = true := by
  apply fpc_of outdir _ "contamination" rest
  · simp only [string_data_append, List.append_assoc]
    rfl
  · decide
  · decide

theorem fpc_multiqc (outdir rest : String) :
    followsPathConvention outdir (outdir ++ ("/multiqc/" ++ rest)) = true := by
  apply fpc_of outdir _ "multiqc" rest
  · simp only [string_data_append, List.append_assoc]
    rfl
  · decide
  · decide

theorem fpc_report (outdir rest : String) :
    followsPathConvention outdir (outdir ++ ("/report/" ++ rest)) = true := by
  apply fpc_of outdir _ "report" rest
  · simp only [string_data_append, List.append_assoc]
    rfl
  · decide
  · decide

theorem fpc_report_alascca (outdir rest : String) :
    followsPathConvention outdir (outdir ++ ("/report/AlasccaReport-" ++ rest)) = true := by
  apply fpc_of outdir _ "report" ("AlasccaReport-" ++ rest)
  · simp only [string_data_append, List.append_assoc]
    rfl
  · decide
  · decide

theorem msicat (k : List Char) :
    path_categories.contains (⟨'m' :: 's' :: 'i' :: 's' :: k⟩ : String) = false := by
  simp [path_categories, String.ext_iff]

theorem msi_not_convention (outdir n c : String) :
    followsPathConvention outdir
      (outdir ++ ("/msisensor-" ++ (n ++ ("-" ++ (c ++ ".tsv"))))) = false := by
  unfold followsPathConvention pathCategory
  have hd : (outdir ++ ("/msisensor-" ++ (n ++ ("-" ++ (c ++ ".tsv"))))).data =
      outdir.data ++ '/' :: ('m' :: 's' :: 'i' :: 's' :: 'e' :: 'n' :: 's' :: 'o' :: 'r' :: '-' ::
        (n.data ++ ('-' :: (c.data ++ ".tsv".data)))) := by
    simp only [string_data_append, List.append_assoc]
    rfl
  rw [hd]
  unfold catOf
  rw [List.take_left, if_pos rfl, List.drop_left]
  have ht : takeUntilSlash
      ('m' :: 's' :: 'i' :: 's' :: 'e' :: 'n' :: 's' :: 'o' :: 'r' :: '-' ::
        (n.data ++ ('-' :: (c.data ++ ".tsv".data)))) =
      'm' :: 's' :: 'i' :: 's' :: takeUntilSlash
        ('e' :: 'n' :: 's' :: 'o' :: 'r' :: '-' ::
          (n.data ++ ('-' :: (c.data ++ ".tsv".data)))) := rfl
  simp only [if_pos rfl, ht, Option.map_some]
  exact msicat _

/-! Part: per-step output-path lemmas feeding the §4.4 convention claim. -/

theorem aux_merge_aborts (outdir : String) (uc : UniqueCapture) (bams : List String)
    (s : PState) :
    (merge_and_rm_dup outdir uc bams s).errOf = some (.attributeError "prep_kit_id") ∧
    jobsAdded (merge_and_rm_dup outdir uc bams) s = [] ∧
    (merge_and_rm_dup outdir uc bams s).stateOf = s := by
  refine ⟨rfl, ?_, rfl⟩
  show s.jobs.drop s.jobs.length = []
  simp [List.drop_length]

theorem aux_germline_aborts (rd : RefData) (outdir : String) (nc : UniqueCapture)
    (bam : Option String) (s : PState) (tname : String)
    (h : get_capture_name nc.capture_kit_id = .ok tname) :
    (call_germline_variants rd outdir nc bam s).errOf =
      some (.attributeError "prep_kit_id") ∧
    jobsAdded (call_germline_variants rd outdir nc bam) s = [] ∧
    (call_germline_variants rd outdir nc bam s).stateOf = s := by
  have hrun : call_germline_variants rd outdir nc bam s =
      .err (.attributeError "prep_kit_id") s := by
    unfold call_germline_variants
    rw [run_bind]
    simp only [liftExcept, h]
    rfl
  refine ⟨?_, ?_, ?_⟩
  · rw [hrun]
    rfl
  · unfold jobsAdded
    rw [hrun]
    show s.jobs.drop s.jobs.length = []
    simp [List.drop_length]
  · rw [hrun]
    rfl

theorem aux_paths_vcf_add (outdir : String) (nc cc : UniqueCapture) (s : PState) :
    (outputsAdded (configure_vcf_add_sample outdir nc cc) s).all
      (followsPathConvention outdir) = true := by
  simp only [outputsAdded, jobsAdded, configure_vcf_add_sample, run_bind,
    get_capture_bamM_run, getS, add, modifyS, set_pair_field, MResult.stateOf,
    List.append_assoc, List.drop_left]
  simp [string_append_assoc, fpc_variants]

theorem aux_paths_msi (rd : RefData) (outdir : String) (nc cc : UniqueCapture)
    (s : PState) :
    outputsAdded (configure_msi_sensor rd outdir nc cc) s =
      [outdir ++ ("/msisensor-" ++ (compose_sample_str nc ++ ("-" ++
        (compose_sample_str cc ++ ".tsv"))))] ∧
    followsPathConvention outdir
      (outdir ++ ("/msisensor-" ++ (compose_sample_str nc ++ ("-" ++
        (compose_sample_str cc ++ ".tsv"))))) = false := by
  constructor
  · simp only [outputsAdded, jobsAdded, configure_msi_sensor, run_bind, add, modifyS,
      get_capture_bamM_run, set_pair_field, MResult.stateOf, List.append_assoc,
      List.drop_left]
    simp [string_append_assoc]
  · exact msi_not_convention outdir _ _

theorem aux_paths_hz (rd : RefData) (outdir : String) (nc cc : UniqueCapture)
    (s : PState) :
    (outputsAdded (configure_hz_conc rd outdir nc cc) s).all
      (followsPathConvention outdir) = true := by
  simp only [outputsAdded, jobsAdded, configure_hz_conc, run_bind, getS, add, modifyS,
    get_capture_bamM_run, set_pair_field, MResult.stateOf, List.append_assoc,
    List.drop_left]
  simp [string_append_assoc, fpc_bams]

theorem aux_contest_vcf_err (rd : RefData) (nc cc : UniqueCapture) (s : PState) :
    (configure_contest_vcf_generation rd nc cc s).errOf = some .indexError ∧
    jobsAdded (configure_contest_vcf_generation rd nc cc) s = [] := by
  constructor
  · rfl
  · simp [jobsAdded, configure_contest_vcf_generation, pyFormat, contestVcfTemplate,
      raiseErr, MResult.stateOf]

theorem aux_paths_contest (rd : RefData) (outdir : String) (c1 c2 : UniqueCapture)
    (v : String) (s : PState) :
    (outputsAdded (configure_contest rd outdir c1 c2 v) s).all
      (followsPathConvention outdir) = true := by
  simp only [outputsAdded, jobsAdded, configure_contest, run_bind, add, modifyS,
    get_capture_bamM_run, MResult.stateOf, List.append_assoc, List.drop_left]
  simp [string_append_assoc, fpc_contamination]

theorem aux_paths_cnvkit (rd : RefData) (outdir : String) (uc : UniqueCapture)
    (s : PState) (tname : String)
    (h : get_capture_name uc.capture_kit_id = .ok tname) :
    (outputsAdded (configure_single_capture_analysis rd outdir uc) s).all
      (followsPathConvention outdir) = true := by
  simp only [outputsAdded, jobsAdded, configure_single_capture_analysis, run_bind,
    liftExcept, h, add, modifyS, get_capture_bamM_run, set_capture_cnr, set_capture_cns,
    MResult.stateOf, List.append_assoc, List.drop_left]
  simp [string_append_assoc, fpc_cnv]

theorem aux_paths_panel_qc (rd : RefData) (outdir : String) (uc : UniqueCapture)
    (s : PState) (tname : String)
    (h : get_capture_name uc.capture_kit_id = .ok tname) :
    (outputsAdded (configure_panel_qc rd outdir uc) s).all
      (followsPathConvention outdir) = true := by
  simp only [outputsAdded, jobsAdded, configure_panel_qc, run_bind,
    liftExcept, h, add, modifyS, get_capture_bamM_run, set_capture_cov_qc_call,
    MResult.stateOf, List.append_assoc, List.drop_left]
  simp [string_append_assoc, fpc_qc, fpc_qc_picard_panel, fpc_qc_sambamba]

theorem aux_paths_multiqc (sd : SampleData) (outdir : String) (s : PState) :
    (outputsAdded (configure_multi_qc sd outdir) s).all
      (followsPathConvention outdir) = true := by
  simp only [outputsAdded, jobsAdded, configure_multi_qc, run_bind, getS, add, modifyS,
    MResult.stateOf, List.append_assoc, List.drop_left]
  simp [string_append_assoc, fpc_multiqc]

theorem aux_paths_metadata (rdc ads outdir : String) (nc tc : UniqueCapture)
    (s : PState) :
    (outputsAdded (configure_compile_metadata rdc ads outdir nc tc) s).all
      (followsPathConvention outdir) = true := by
  simp only [outputsAdded, jobsAdded, configure_compile_metadata, run_bind, add, modifyS,
    MResult.stateOf, List.append_assoc, List.drop_left]
  simp [string_append_assoc, fpc_report]

theorem aux_paths_report (outdir : String) (nc tc : UniqueCapture) (mj gj : String)
    (s : PState) :
    (outputsAdded (configure_write_alascca_report outdir nc tc mj gj) s).all
      (followsPathConvention outdir) = true := by
  simp only [outputsAdded, jobsAdded, configure_write_alascca_report, run_bind, add,
    modifyS, MResult.stateOf, List.append_assoc, List.drop_left]
  simp [string_append_assoc, fpc_report_alascca]

/-! Part: the claims. -/

/-- Claim C1: for a cohort with N unique normal and M unique cancer
captures the pairing fan-out is claimed to configure exactly N×M
paired-analysis job groups, each with the five analyses in order.  On
the state holding one normal and one tumor capture (N = M = 1), the
paired-analysis group itself aborts at its first step:
`configure_somatic_calling` registers its result under the unbound name
`normal` (clinseq.py line 499), raising `NameError` before the somatic
VCF is stored, so the pair ledger stays empty and no paired-analysis
group is completed (the contamination step further in the group would
also fail, see `configure_contest_vcf_generation` and
`configure_contamination_estimate`).  The full configuration run on the
same cohort never even reaches the fan-out: it aborts in
`merge_and_rm_dup` on the missing `prep_kit_id` attribute. -/
theorem c1_pairing_fanout_aborts :
    (configure_panel_analysis_cancer_vs_normal rdFix "/out" ncFix tcFix sPair).errOf =
      some (.nameError "normal") ∧
    (configure_panel_analysis_cancer_vs_normal rdFix "/out" ncFix tcFix
      sPair).stateOf.normal_cancer_pair_to_results = [] ∧
    get_unique_normal_captures sPair = [ncFix] ∧
    get_unique_cancer_captures sPair = [tcFix] ∧
    panelRun.errOf = some (.attributeError "prep_kit_id") ∧
    panelRun.stateOf.normal_cancer_pair_to_results = [] := by decide

/-- Claim C2: `UniqueCapture` is claimed to be an immutable four-field
value with structural equality, produced by barcode parsing.  The
source's `collections.namedtuple` call passes the four field names as
four separate positional arguments, so Python binds them as
`(typename, field_names, verbose, rename)`: the resulting type is named
`sample_type` and has the single field `sample_id`, and constructing it
with the four parsed barcode components is an arity error. -/
theorem c2_namedtuple_single_field :
    pyNamedtuple uniqueCaptureNamedtupleArgs =
      some ⟨"sample_type", ["sample_id"], true, true⟩ ∧
    (pyNamedtuple uniqueCaptureNamedtupleArgs).map (fun sp => sp.fields.length) =
      some 1 ∧
    namedtupleInstance ⟨"sample_type", ["sample_id"], true, true⟩
      ["N", "111", "TD", "CS"] = none := by decide

/-- Claim C3, counterexample: the claim asserts the cohort-shape error
for every state without exactly one normal and one *tumor* capture.  On
the state with one normal and one cfDNA capture there is no tumor
capture at all, yet the retrieval succeeds (the source counts cancer
captures, not tumor captures), returning the normal capture twice; the
report configuration then fails later with a different error (the
`cna` attribute read), not with the cohort-shape error. -/
theorem c3_no_shape_error_without_tumor :
    (get_unique_tumor_captures sCf).length = 0 ∧
    (get_unique_normal_captures sCf).length = 1 ∧
    get_normal_and_tumor_captures sCf = .ok (ncFix, ncFix) sCf ∧
    alasccaRunCf.errOf = some (.attributeError "cna") := by decide

/-- Claim C3, amended: under the ALASCCA specialization, for every
pipeline state that does not hold exactly one normal and exactly one
*cancer* (non-Normal) capture, configuring the report analysis raises
the fatal cohort-shape error (a `ValueError` in the source) with the
state unchanged — in particular before any report-specific job is
added. -/
theorem c3_cohort_shape_error (rd : RefData) (rdc ads outdir : String) (s : PState)
    (h : ¬((get_unique_normal_captures s).length = 1 ∧
           (get_unique_cancer_captures s).length = 1)) :
    configure_alascca_specific_analysis rd rdc ads outdir s =
      .err (.valueError "Invalid pipeline state for configuration of ALASCCA CNA.") s := by
  have hcond : (get_unique_cancer_captures s).length ≠ 1 ∨
      (get_unique_normal_captures s).length ≠ 1 := by
    by_contra hc
    push_neg at hc
    exact h ⟨hc.2, hc.1⟩
  unfold configure_alascca_specific_analysis
  rw [run_bind, gnat_err_of s hcond]

/-- Claim C3, witness: the two-tumor one-normal cohort violates the
shape precondition, and the report configuration aborts with the
cohort-shape error leaving the state untouched. -/
theorem c3_cohort_shape_error_witness :
    ¬((get_unique_normal_captures s2T).length = 1 ∧
      (get_unique_cancer_captures s2T).length = 1) ∧
    configure_alascca_specific_analysis rdFix "referral-db-config.json" "addresses.csv"
        "/out" s2T =
      .err (.valueError "Invalid pipeline state for configuration of ALASCCA CNA.") s2T :=
  ⟨by decide,
   c3_cohort_shape_error rdFix "referral-db-config.json" "addresses.csv" "/out" s2T
     (by decide)⟩

/-- Claim C4: the retrieval step is claimed to return (normal, tumor)
with the tumor component being the unique tumor capture, and the
CNA/purity step is claimed to read the pair's somatic and enriched VCFs
plus the tumor capture's cnr/cns.  On the one-normal-one-tumor state
the retrieval instead returns the normal capture for both components
(alascca.py line 64 reads the normal list twice), and the CNA step
aborts reading the nonexistent attribute `cna` (line 76; the segment
field is `cns`), so no report job is ever added. -/
theorem c4_tumor_retrieval_returns_normal :
    get_normal_and_tumor_captures sPair = .ok (ncFix, ncFix) sPair ∧
    ncFix ≠ tcFix ∧
    (configure_alascca_cna rdFix "/out" ncFix ncFix sPair).errOf =
      some (.attributeError "cna") ∧
    alasccaRunPair.stateOf.jobs = [] := by decide

/-- Claim C5, counterexample: a second `set_capture_bam` on the same
capture silently replaces the stored reference — the read afterwards
yields the second bam, and no error of any kind is raised (the setter
is a plain field assignment). -/
theorem c5_second_set_overwrites_concrete :
    (get_capture_bam
      (set_capture_bam ncFix "b.bam" (set_capture_bam ncFix "a.bam" {})) ncFix).1 =
      some "b.bam" ∧
    ("b.bam" : String) ≠ "a.bam" := by decide

/-- Claim C5, amended: for every ledger field with a `set_*` accessor
(merged bam, cnr, cns, germline VCF), a second call on an
already-populated field silently overwrites the stored artifact
reference with the new value; no `DuplicateAssignmentError` exists in
the code. -/
theorem c5_second_set_overwrites (s : PState) (c : UniqueCapture) (b1 b2 : String) :
    (alist_find (set_capture_bam c b2 (set_capture_bam c b1 s)).capture_to_results c).map
      SinglePanelResults.merged_bamfile = some (some b2) ∧
    (alist_find (set_capture_cnr c b2 (set_capture_cnr c b1 s)).capture_to_results c).map
      SinglePanelResults.cnr = some (some b2) ∧
    (alist_find (set_capture_cns c b2 (set_capture_cns c b1 s)).capture_to_results c).map
      SinglePanelResults.cns = some (some b2) ∧
    alist_find (set_germline_vcf c b2 (set_germline_vcf c b1 s)).normal_capture_to_vcf c =
      some b2 := by
  refine ⟨?_, ?_, ?_, ?_⟩
  · unfold set_capture_bam
    rw [alist_find_dd_update]
    rfl
  · unfold set_capture_cnr
    rw [alist_find_dd_update]
    rfl
  · unfold set_capture_cns
    rw [alist_find_dd_update]
    rfl
  · unfold set_germline_vcf
    rw [alist_find_dict_set]

/-- Claim C6: germline variant calling is claimed to be configured on
the normal capture's merged alignment, with the `vep_dir` conditional
choosing which call set is registered as the germline VCF.  In the
source, `call_germline_variants` builds `capture_str` from
`normal_capture.prep_kit_id` (clinseq.py line 397) — an attribute the
declared four-field capture key (sample_type, sample_id,
library_kit_id, capture_kit_id) does not have — before building the
Freebayes job.  So for a concrete normal capture with its merged bam,
with the annotation reference present or absent alike, the step aborts
with `AttributeError`, adds no job, and registers no germline VCF: the
claimed configuration and branch are dead code. -/
theorem c6_germline_aborts_prep_kit_id :
    getattrUniqueCapture ncFix "prep_kit_id" = .error (.attributeError "prep_kit_id") ∧
    (call_germline_variants rdFix "/out" ncFix
      (some "/out/bams/panel/N-111-TD-CS-nodups.bam") sPair).errOf =
      some (.attributeError "prep_kit_id") ∧
    jobsAdded (call_germline_variants rdFix "/out" ncFix
      (some "/out/bams/panel/N-111-TD-CS-nodups.bam")) sPair = [] ∧
    (call_germline_variants rdFix "/out" ncFix
      (some "/out/bams/panel/N-111-TD-CS-nodups.bam")
      sPair).stateOf.normal_capture_to_vcf = [] ∧
    (call_germline_variants rdNoVepFix "/out" ncFix
      (some "/out/bams/panel/N-111-TD-CS-nodups.bam") sPair).errOf =
      some (.attributeError "prep_kit_id") ∧
    (call_germline_variants rdNoVepFix "/out" ncFix
      (some "/out/bams/panel/N-111-TD-CS-nodups.bam")
      sPair).stateOf.normal_capture_to_vcf = [] :=
  ⟨rfl, rfl, rfl, rfl, rfl, rfl⟩

/-- Claim C7, counterexample: the claim says every output path — the
MSI-sensor output and the contamination population VCF in particular —
matches `{outdir}/{category}/{capture_str_or_pair_str}-{suffix}` with
the capture component from the canonical renderer.  Concretely: the
MSI-sensor output is written directly under the output directory (its
first path component after `outdir` is `msisensor-...`, not a
category); the population-VCF path formatting fails with `IndexError`
(three placeholders, two arguments), so that job is never configured
at all; and a per-capture QC output — the insert-size metrics file —
does not have the template form for any category and any canonical
capture or pair string of the cohort, since `picard/panel/` sits
between the category and the capture string. -/
theorem c7_convention_violations_concrete :
    followsPathConvention "/out" "/out/msisensor-N-111-TD-CS-T-222-TD-CS.tsv" = false ∧
    outputsAdded (configure_msi_sensor rdFix "/out" ncFix tcFix) sPair =
      ["/out/msisensor-N-111-TD-CS-T-222-TD-CS.tsv"] ∧
    (configure_contest_vcf_generation rdFix ncFix tcFix sPair).errOf =
      some .indexError ∧
    jobsAdded (configure_contest_vcf_generation rdFix ncFix tcFix) sPair = [] ∧
    "/out/qc/picard/panel/T-222-TD-CS.picard-insertsize.txt" ∈
      outputsAdded (configure_panel_qc rdFix "/out" tcFix) sPair ∧
    hasTemplateForm "/out"
      [compose_sample_str ncFix, compose_sample_str tcFix,
       compose_sample_str ncFix ++ "-and-" ++ compose_sample_str tcFix,
       compose_sample_str tcFix ++ "-" ++ compose_sample_str ncFix]
      "/out/qc/picard/panel/T-222-TD-CS.picard-insertsize.txt" = false := by decide

/-- Claim C7, amended: every output path actually configured by the
job-configuration steps begins with the pipeline output directory
followed by a category component from
`bams|cnv|variants|qc|contamination|report|multiqc`, with two
exceptions: the MSI-sensor output is written directly under the output
directory as `msisensor-{normal}-{cancer}.tsv` (no category component),
and the contamination population-VCF path template receives only the
two capture strings for its three placeholders, so its formatting
raises `IndexError` and no population-VCF job or output path is
configured.  The finer template
`{outdir}/{category}/{capture_str_or_pair_str}-{suffix}` does not
hold: the per-capture QC paths interpose `picard/panel/` or
`sambamba/` between the category and the capture string (see the
counterexample).  The merge/dedup and germline-calling steps abort on
the missing `prep_kit_id` attribute before producing any output path,
so the convention is vacuous for them (first two conjuncts). -/
theorem c7_amended_path_convention (rd : RefData) (sd : SampleData)
    (outdir rdc ads v mj gj : String) (nc cc uc : UniqueCapture) (bam : Option String)
    (bams : List String) (s : PState) (tn1 tn2 : String)
    (h1 : get_capture_name nc.capture_kit_id = .ok tn1)
    (h2 : get_capture_name uc.capture_kit_id = .ok tn2) :
    ((merge_and_rm_dup outdir uc bams s).errOf =
       some (.attributeError "prep_kit_id") ∧
     jobsAdded (merge_and_rm_dup outdir uc bams) s = []) ∧
    ((call_germline_variants rd outdir nc bam s).errOf =
       some (.attributeError "prep_kit_id") ∧
     jobsAdded (call_germline_variants rd outdir nc bam) s = []) ∧
    (outputsAdded (configure_vcf_add_sample outdir nc cc) s).all
      (followsPathConvention outdir) = true ∧
    (outputsAdded (configure_msi_sensor rd outdir nc cc) s =
      [outdir ++ ("/msisensor-" ++ (compose_sample_str nc ++ ("-" ++
        (compose_sample_str cc ++ ".tsv"))))] ∧
     followsPathConvention outdir
      (outdir ++ ("/msisensor-" ++ (compose_sample_str nc ++ ("-" ++
        (compose_sample_str cc ++ ".tsv"))))) = false) ∧
    (outputsAdded (configure_hz_conc rd outdir nc cc) s).all
      (followsPathConvention outdir) = true ∧
    ((configure_contest_vcf_generation rd nc cc s).errOf = some .indexError ∧
     jobsAdded (configure_contest_vcf_generation rd nc cc) s = []) ∧
    (outputsAdded (configure_contest rd outdir nc cc v) s).all
      (followsPathConvention outdir) = true ∧
    (outputsAdded (configure_single_capture_analysis rd outdir uc) s).all
      (followsPathConvention outdir) = true ∧
    (outputsAdded (configure_panel_qc rd outdir uc) s).all
      (followsPathConvention outdir) = true ∧
    (outputsAdded (configure_multi_qc sd outdir) s).all
      (followsPathConvention outdir) = true ∧
    (outputsAdded (configure_compile_metadata rdc ads outdir nc cc) s).all
      (followsPathConvention outdir) = true ∧
    (outputsAdded (configure_write_alascca_report outdir nc cc mj gj) s).all
      (followsPathConvention outdir) = true :=
  ⟨⟨(aux_merge_aborts outdir uc bams s).1, (aux_merge_aborts outdir uc bams s).2.1⟩,
   ⟨(aux_germline_aborts rd outdir nc bam s tn1 h1).1,
    (aux_germline_aborts rd outdir nc bam s tn1 h1).2.1⟩,
   aux_paths_vcf_add outdir nc cc s,
   aux_paths_msi rd outdir nc cc s,
   aux_paths_hz rd outdir nc cc s,
   aux_contest_vcf_err rd nc cc s,
   aux_paths_contest rd outdir nc cc v s,
   aux_paths_cnvkit rd outdir uc s tn2 h2,
   aux_paths_panel_qc rd outdir uc s tn2 h2,
   aux_paths_multiqc sd outdir s,
   aux_paths_metadata rdc ads outdir nc cc s,
   aux_paths_report outdir nc cc mj gj s⟩

/-- Claim C7, witness: the amended convention evaluated at the concrete
fixture — the germline-enrichment (vcf-add-sample) and per-capture QC
paths all carry a category from the allowed set. -/
theorem c7_amended_path_convention_witness :
    get_capture_name ncFix.capture_kit_id = .ok "clinseq_v3_targets" ∧
    get_capture_name tcFix.capture_kit_id = .ok "clinseq_v3_targets" ∧
    (outputsAdded (configure_vcf_add_sample "/out" ncFix tcFix) sPair).all
      (followsPathConvention "/out") = true ∧
    (outputsAdded (configure_panel_qc rdFix "/out" tcFix) sPair).all
      (followsPathConvention "/out") = true := by
  have h := c7_amended_path_convention rdFix sdFix "/out" "referral-db-config.json"
    "addresses.csv" "/out/contamination/pop.vcf" "/out/report/m.json" "/out/report/g.json"
    ncFix tcFix tcFix (some "/out/bams/panel/N-111-TD-CS-nodups.bam") [] sPair
    "clinseq_v3_targets" "clinseq_v3_targets" (by rfl) (by rfl)
  exact ⟨by rfl, by rfl, h.2.2.1, h.2.2.2.2.2.2.2.2.1⟩

/-- Claim C8: every field of the two fresh results records is claimed
to start empty.  `SinglePanelResults.__init__` does assign `None` to
all four fields, but in `CancerVsNormalPanelResults.__init__` six of
the seven assignments end in a trailing comma, so those fields start as
the one-element tuple `(None,)` — a truthy value holding an entry, not
an empty/absent slot; only `cancer_contam_call` starts as `None`. -/
theorem c8_fresh_pair_fields_not_empty :
    pyInitCancerVsNormalPanelResults.map Prod.snd =
      [.tup1 .none, .tup1 .none, .tup1 .none, .tup1 .none, .tup1 .none, .tup1 .none,
       .none] ∧
    pyTruthy (.tup1 .none) = true ∧
    pyInitSinglePanelResults.map Prod.snd = [.none, .none, .none, .none] := by decide

/-- Claim C9: for a capture absent from the per-capture ledger,
`get_capture_bam` returns `None` and leaves the whole pipeline state —
in particular the ledger — unchanged (the membership guard prevents the
defaultdict read from vivifying a fresh record); for a present capture
it returns the stored merged-bam reference, likewise without modifying
the ledger. -/
theorem c9_get_capture_bam_no_vivify (s : PState) (c : UniqueCapture) :
    (get_capture_bam s c).2 = s ∧
    (get_capture_bam s c).1 = (match alist_find s.capture_to_results c with
      | some r => r.merged_bamfile
      | none => none) := by
  refine ⟨get_capture_bam_snd s c, ?_⟩
  unfold get_capture_bam
  by_cases h : c ∈ get_all_unique_captures s
  · have hs : (alist_find s.capture_to_results c).isSome :=
      alist_find_isSome _ _ h
    obtain ⟨r, hr⟩ := Option.isSome_iff_exists.mp hs
    rw [if_pos h]
    unfold dd_get
    rw [hr]
  · have hn : alist_find s.capture_to_results c = none :=
      alist_find_eq_none _ _ h
    rw [if_neg h, hn]

/-- Claim C10: configuring the fastq QC jobs never touches the
pipeline-wide `qc_files` list (the FastQC output names only live in the
function's local list and return value; in this code version the loop
in fact raises on the first `(fq1s, fq2s)` pair, so for a nonempty
fastq list it aborts before building any job), and the MultiQC
aggregation job's input file list is exactly the pipeline-wide
`qc_files` list — so no fastq QC output can appear among the MultiQC
inputs. -/
theorem c10_fastq_qcs_leave_qc_files_unchanged (env : Env) (sd : SampleData)
    (outdir : String) (s : PState) :
    (configure_fastq_qcs env sd s).stateOf.qc_files = s.qc_files ∧
    (configure_fastq_qcs env sd s).stateOf.jobs = s.jobs ∧
    (configure_fastq_qcs env sd s).errOf =
      (if get_all_fastq_files env sd = [] then none
       else some (.attributeError "rfind")) ∧
    configure_multi_qc sd outdir s =
      .ok () { s with jobs := s.jobs ++
        [{ kind := "MultiQC", name := "multiqc-" ++ sd.sdid,
           inputs := s.qc_files.map some,
           outputs := [outdir ++ "/multiqc/" ++ sd.sdid ++ "-multiqc"] }] } := by
  refine ⟨?_, ?_, ?_, ?_⟩
  · unfold configure_fastq_qcs
    cases get_all_fastq_files env sd with
    | nil => rfl
    | cons a l => rfl
  · unfold configure_fastq_qcs
    cases get_all_fastq_files env sd with
    | nil => rfl
    | cons a l => rfl
  · unfold configure_fastq_qcs
    cases h : get_all_fastq_files env sd with
    | nil => rfl
    | cons a l => simp [h, fastq_qc_loop, raiseErr, MResult.errOf]
  · rfl

end Autoseq
